import Mathlib

/-!
Verification model of the HA-tion_keep_alive connection lifecycle engine
(`custom_components/ha_tion_btle/__init__.py` and
`custom_components/ha_tion_btle/persistent.py`).

The Python code is shallowly embedded: each method becomes a pure Lean
function over an explicit state record; external effects (the BLE driver,
monotonic clock readings, the jitter drawn from `random.uniform`) are
passed in as parameters, and calls into the driver ("Link Handle") are
recorded in an output trace.
-/

namespace HaTion

/-- Python `int()` applied to a real number: truncation toward zero. -/
def pyTrunc (q : ℚ) : ℤ :=
  if 0 ≤ q then ⌊q⌋ else ⌈q⌉

/-- Does the second character list start with the first? -/
def leadsWith : List Char → List Char → Bool
  | [], _ => true
  | _ :: _, [] => false
  | a :: pa, b :: sb => a == b && leadsWith pa sb

/-- Does the character list contain `pat` as a contiguous sublist? -/
def hasSubList (pat : List Char) : List Char → Bool
  | [] => leadsWith pat []
  | s@(_ :: rest) => leadsWith pat s || hasSubList pat rest

/-- Python `s.lower()` (characterwise, as for the ASCII messages used
here). -/
def lowerStr (s : String) : String := ⟨s.data.map Char.toLower⟩

/-- Python `s.upper()` (characterwise, as for MAC address strings). -/
def upperStr (s : String) : String := ⟨s.data.map Char.toUpper⟩

/-- Python `pat in s` substring test. -/
def containsSub (s pat : String) : Bool := hasSubList pat.data s.data

/-- The handshake-failure classification performed by `_mark_disconnected`
(lines 174-180): the lowercased reason contains one of four signatures. -/
def isHandshakeReason (reason : String) : Bool :=
  let r := lowerStr reason
  containsSub r "handshake timeout" ||
  containsSub r "services are not ready" ||
  containsSub r "service discovery has not been performed" ||
  containsSub r "maxtriesexceeded"

/-- The breaker silence stages `[15, 45, 120, 300]` (line 184). -/
def stageList : List ℕ := [15, 45, 120, 300]

/-- The reconnect backoff for the n-th consecutive failure:
`min(10 * (2 ** (fail_count - 1)), 60)` (line 171). -/
def backoffOf (n : ℕ) : ℕ :=
  min (10 * 2 ^ (n - 1)) 60

/-- The mutable fields of `TionInstance` that the connection lifecycle
engine reads and writes.  Times are rationals standing for
`time.monotonic()` seconds; `tionGen` numbers the successive protocol
objects `self.__tion` (incremented whenever `_hard_reset_ble` recreates
the driver); `updateInterval` and `reconnectDelay` are in seconds. -/
structure TionState where
  breakerUntil : ℚ
  breakerLevel : ℕ
  needHardReset : Bool
  failCount : ℕ
  isConnected : Bool
  reconnectDelay : ℚ
  updateInterval : ℚ
  tionGen : ℕ
  keepAlive : ℚ
  deriving DecidableEq, Repr

/-- `_mark_disconnected(reason)` (lines 167-210).  `now` is the value of
`time.monotonic()` during the call and `j` the value drawn by
`random.uniform(0.8, 1.2)` (only used on the handshake branch).
The silence stage is indexed by the breaker level AFTER the increment,
and truncated to an integer by Python `int()`. -/
def markDisconnected (st : TionState) (reason : String) (now j : ℚ) : TionState :=
  let failCount := st.failCount + 1
  let backoff : ℕ := backoffOf failCount
  let st1 :=
    if isHandshakeReason reason then
      let lvl := min (st.breakerLevel + 1) 3
      let silence : ℤ := pyTrunc ((stageList.getD lvl 0 : ℚ) * j)
      { st with
          breakerLevel := lvl
          breakerUntil := now + (silence : ℚ)
          needHardReset := true }
    else st
  { st1 with
      failCount := failCount
      reconnectDelay := (backoff : ℚ)
      isConnected := false
      updateInterval := (backoff : ℚ) }

/-- One observable call into the Link Handle (the `self.__tion` driver
object), tagged with the generation of the driver instance it targets. -/
inductive LinkCall where
  | connect (gen : ℕ)
  | disconnect (gen : ℕ)
  | recreate (newGen : ℕ)
  deriving DecidableEq, Repr

/-- Whether a `LinkCall` is the recreation of the driver object. -/
def LinkCall.isRecreate : LinkCall → Bool
  | .recreate _ => true
  | _ => false

/-- `_hard_reset_ble(reason)` (lines 232-241): best-effort disconnect of
the current driver, then `self.__tion = self.getTion(...)` (a fresh
instance, modelled by bumping `tionGen`), then `_is_connected = False`. -/
def hardResetBle (st : TionState) : TionState × List LinkCall :=
  ({ st with tionGen := st.tionGen + 1, isConnected := false },
   [.disconnect st.tionGen, .recreate (st.tionGen + 1)])

/-- Outcome of the priming phase as seen by `_ensure_connected`: either
`self._prime_services()` returns, or it raises `UpdateFailed msg`. -/
inductive PrimeRes where
  | ok
  | err (msg : String)
  deriving DecidableEq, Repr

/-- What the external world does during one connection attempt: either the
raw `self.__tion.connect()` raises (message `msg`), or it succeeds and the
priming phase yields `pr`. -/
inductive AttemptOutcome where
  | connectRaise (msg : String)
  | afterConnect (pr : PrimeRes)
  deriving DecidableEq, Repr

/-- Result of `_ensure_connected()` as seen by its caller. -/
inductive EnsureOutcome where
  | fastPath
  | breakerOpen (remaining : ℤ)
  | connected
  | raised (reason : String)
  deriving DecidableEq, Repr

/-- `_ensure_connected()` (lines 285-333).  `nowS` is `time.monotonic()`
at the breaker check, `nowE` the time at which a failure (if any) is
recorded, `att` the behaviour of the driver during the attempt and `j`
the jitter used by `_mark_disconnected` on the failure path.  Returns the
outcome, the new state, and the trace of Link Handle calls.  Raw connect
exceptions are not `UpdateFailed`, so the `isinstance` check on line 321
only fires for priming failures whose message contains
`"services are not ready"`. -/
def ensureConnected (st : TionState) (nowS nowE : ℚ) (att : AttemptOutcome)
    (j : ℚ) : EnsureOutcome × TionState × List LinkCall :=
  if st.isConnected then (.fastPath, st, [])
  else if nowS < st.breakerUntil then
    (.breakerOpen (pyTrunc (st.breakerUntil - nowS)), st, [])
  else
    let (st1, tr1) :=
      if st.needHardReset then
        let (s, t) := hardResetBle st
        ({ s with needHardReset := false }, t)
      else (st, [])
    match att with
    | .connectRaise msg =>
        let tr := tr1 ++ [.connect st1.tionGen, .disconnect st1.tionGen]
        let st2 := { st1 with isConnected := false }
        let reason := "connect/prime failed: " ++ msg
        (.raised reason, markDisconnected st2 reason nowE j, tr)
    | .afterConnect .ok =>
        (.connected,
         { st1 with
             isConnected := true
             failCount := 0
             breakerUntil := 0
             breakerLevel := 0
             updateInterval := st1.keepAlive },
         tr1 ++ [.connect st1.tionGen])
    | .afterConnect (.err msg) =>
        let tr := tr1 ++ [.connect st1.tionGen, .disconnect st1.tionGen]
        let st2 := { st1 with isConnected := false }
        let st3 :=
          if containsSub (lowerStr msg) "services are not ready" then
            { st2 with needHardReset := true }
          else st2
        let reason := "connect/prime failed: " ++ msg
        (.raised reason, markDisconnected st3 reason nowE j, tr)

/-- Outcome of one `self.__tion.get()` call inside `_prime_services`
(lines 254-278): success, `MaxTriesExceededError`, a `bleak.BleakError`
that `_bleak_service_not_ready` recognises, another `BleakError`, or an
arbitrary other exception. -/
inductive GetOut where
  | ok
  | maxTries
  | bleakNotReady
  | bleakOther (msg : String)
  | otherExc (msg : String)
  deriving DecidableEq, Repr

/-- One iteration of the priming loop: `tLoop` is the elapsed time
`time.monotonic() - started` observed at the loop-head check (line 254),
`out` the outcome of the `get()` call, and `tErr` the elapsed time
recomputed at the fast-fail check (line 269) if the call failed. -/
structure PrimeEvent where
  tLoop : ℚ
  out : GetOut
  tErr : ℚ
  deriving DecidableEq, Repr

/-- How `_prime_services` terminates. -/
inductive PrimeResult where
  | ok
  | fastFail
  | timeout
  | failed (msg : String)
  | failedUnexpected (msg : String)
  deriving DecidableEq, Repr

/-- Exception message attached to each failing `PrimeResult`
(`UpdateFailed` messages on lines 271, 276, 278, 280). -/
def primeMsg : PrimeResult → Option String
  | .ok => none
  | .fastFail => some "Handshake timeout: BLE services are not ready (fast)"
  | .timeout => some "Handshake timeout: BLE services are not ready"
  | .failed m => some ("Handshake failed: " ++ m)
  | .failedUnexpected m => some ("Handshake failed with unexpected error: " ++ m)

/-- The `while` loop of `_prime_services` (lines 254-280) over the trace
of `get()` attempts.  `streak` is `not_ready_streak`; it is only ever
incremented (a `MaxTriesExceededError` neither increments nor resets it).
An exhausted event list means the next loop-head check saw the 60 s
budget expired, which raises the terminal handshake timeout. -/
def primeLoop (timeout : ℚ) (streak : ℕ) : List PrimeEvent → PrimeResult
  | [] => .timeout
  | e :: rest =>
    if e.tLoop < timeout then
      match e.out with
      | .ok => .ok
      | .maxTries => primeLoop timeout streak rest
      | .bleakNotReady =>
          if 7 ≤ streak + 1 ∧ e.tErr < 10 then .fastFail
          else primeLoop timeout (streak + 1) rest
      | .bleakOther msg => .failed msg
      | .otherExc msg => .failedUnexpected msg
    else .timeout

/-- The overall priming timeout `self._prime_timeout_s = 60.0` (line 92). -/
def primeTimeoutS : ℚ := 60

/-- A value stored under the `"heater"` key of the response dict: the raw
driver value is a string, but `async_update_state` overwrites the same
key with the decoded boolean. -/
inductive HVal where
  | s (v : String)
  | b (v : Bool)
  deriving DecidableEq, Repr

/-- `_decode_state` (lines 347-349) applied to whatever currently sits
under the key: Python `x == "on"` is `False` whenever `x` is a `bool`. -/
def decodeHVal : HVal → Bool
  | .s v => v == "on"
  | .b _ => false

/-- The response snapshot as `async_update_state` manipulates it.  The
`"state"` and `"heating"` keys are only ever read (their decoded values
land under the distinct keys `"is_on"` / `"is_heating"`), while
`"heater"`, `"filter_remain"` and `"fan_speed"` are overwritten in place.
Numeric fields are modelled at their runtime numeric types. -/
structure Snapshot where
  state : String
  heating : String
  heater : HVal
  filter_remain : ℚ
  fan_speed : ℚ
  is_on : Option Bool
  is_heating : Option Bool
  rssi : ℤ
  deriving DecidableEq, Repr

/-- The normalization block of `async_update_state` (lines 392-398):
`is_on := decode(state)`, `heater := decode(heater)` (in place!),
`is_heating := decode(heating)`, `filter_remain := math.ceil(...)`,
`fan_speed := int(...)`, `rssi := self.rssi`. -/
def normalizeSnap (rssi : ℤ) (r : Snapshot) : Snapshot :=
  { r with
      is_on := some (r.state == "on")
      heater := .b (decodeHVal r.heater)
      is_heating := some (r.heating == "on")
      filter_remain := (⌈r.filter_remain⌉ : ℚ)
      fan_speed := ((pyTrunc r.fan_speed : ℤ) : ℚ)
      rssi := rssi }

/-- A Python value stored in the coordinator cache `self.data` or passed
as a keyword argument to `set(**kwargs)`. -/
inductive PyVal where
  | ps (v : String)
  | pb (v : Bool)
  | pi (v : ℤ)
  | pq (v : ℚ)
  deriving DecidableEq, Repr

/-- Python `int()` on a value (`kwargs["fan_speed"] = int(...)`, line 406).
Callers pass numerics; string parsing is outside the modelled domain. -/
def pyIntVal : PyVal → PyVal
  | .pi n => .pi n
  | .pq q => .pi (pyTrunc q)
  | .pb b => .pi (if b then 1 else 0)
  | .ps v => .ps v

/-- Association-list update of one key, mirroring `dict.__setitem__`. -/
def setKey : List (String × PyVal) → String → PyVal → List (String × PyVal)
  | [], k, v => [(k, v)]
  | (k0, v0) :: rest, k, v =>
      if k0 = k then (k0, v) :: rest else (k0, v0) :: setKey rest k v

/-- `dict.update(args)`: apply each binding of `args` in order. -/
def updateMap (data args : List (String × PyVal)) : List (String × PyVal) :=
  args.foldl (fun d kv => setKey d kv.1 kv.2) data

/-- Association-list lookup, mirroring `dict.get`. -/
def lookupKey (l : List (String × PyVal)) (k : String) : Option PyVal :=
  match l with
  | [] => none
  | (k0, v) :: rest => if k0 = k then some v else lookupKey rest k

/-- The `if "fan_speed" in kwargs: kwargs["fan_speed"] = int(...)` step
of `set` (lines 405-406). -/
def intifyFanSpeed (kwargs : List (String × PyVal)) : List (String × PyVal) :=
  match lookupKey kwargs "fan_speed" with
  | some v => setKey kwargs "fan_speed" (pyIntVal v)
  | none => kwargs

/-- The `is_on`/`heater` translation of `set` (lines 409-413), applied to
`kwargs` AFTER `original_args = kwargs.copy()` was taken: `is_on` is
replaced by `state = "on"/"off"`, `heater` becomes `"on"/"off"`. -/
def driverArgs (kwargs : List (String × PyVal)) : List (String × PyVal) :=
  let k1 :=
    match lookupKey kwargs "is_on" with
    | some (.pb b) =>
        setKey (kwargs.filter (fun kv => kv.1 ≠ "is_on")) "state"
          (.ps (if b then "on" else "off"))
    | some v =>
        setKey (kwargs.filter (fun kv => kv.1 ≠ "is_on")) "state"
          (.ps (if decide (v = .ps "on") then "on" else "off"))
    | none => kwargs
  match lookupKey k1 "heater" with
  | some (.pb b) => setKey k1 "heater" (.ps (if b then "on" else "off"))
  | some _ => k1
  | none => k1

/-- How the driver behaves during `set`: the `self.__tion.set(kwargs)`
call either succeeds — its return value (`fresh`) is bound by nothing in
the source and thus discarded — or raises (message `msg`). -/
inductive SetOutcome where
  | success (fresh : Option Snapshot)
  | fail (msg : String)
  deriving DecidableEq, Repr

/-- Result of `TionInstance.set` restricted to the cache `self.data`:
the driver-facing argument list, whether the call re-raised, and the
cache afterwards.  On success (lines 443-448) the code runs
`self.data.update(original_args)` where `original_args` is the kwargs
copy taken after the `fan_speed` conversion; on failure the except
branches (lines 430-441) never touch `self.data`. -/
def setOp (data kwargs : List (String × PyVal)) (outcome : SetOutcome) :
    List (String × PyVal) × Bool × List (String × PyVal) :=
  let kw1 := intifyFanSpeed kwargs
  let originalArgs := kw1
  let sent := driverArgs kw1
  match outcome with
  | .success _ => (sent, false, updateMap data originalArgs)
  | .fail _ => (sent, true, data)

/-- The fields of `PersistentPeripheral` (persistent.py) that govern its
lifecycle: `_stop` (threading.Event), `_connected` (threading.Event) and
whether `_per` currently holds a `Peripheral`. -/
structure PPConn where
  stop : Bool
  connected : Bool
  hasPer : Bool
  deriving DecidableEq, Repr

/-- The freshly constructed manager (lines 75-78): not stopped, not
connected, no peripheral yet. -/
def ppInit : PPConn := { stop := false, connected := false, hasPer := false }

/-- `PersistentPeripheral.disconnect()` (lines 170-185): set `_stop`,
clear `_connected`, join the worker, then best-effort `_per.disconnect()`
(exceptions swallowed, modelled by `perRaises` having no effect) and
`_per = None`.  Returns the new state and whether `_per.disconnect()`
was invoked.  `perRaises` (whether that call raised) is accepted but has
no influence: the exception is swallowed by the bare `except`. -/
def ppDisconnect (st : PPConn) (_perRaises : Bool) : PPConn × Bool :=
  (({ stop := true, connected := false, hasPer := false } : PPConn), st.hasPer)

/-- The guard of the worker loop `while not self._stop.is_set()`
(line 206). -/
def workerMayRun (st : PPConn) : Bool := !st.stop

/-- The state transitions the `_worker` thread (lines 204-275) can
perform.  Every one of them executes under the loop guard
`not self._stop.is_set()`. -/
inductive WorkerStep : PPConn → PPConn → Prop
  | connectOnce (st : PPConn) (h : st.stop = false) (h2 : st.connected = false) :
      WorkerStep st { st with connected := true, hasPer := true }
  | connectFail (st : PPConn) (h : st.stop = false) (h2 : st.connected = false) :
      WorkerStep st st
  | linkDown (st : PPConn) (h : st.stop = false) (h2 : st.connected = true) :
      WorkerStep st { st with connected := false, hasPer := false }

/-- Configuration keyword parameters accepted by `BleManager.get`
(lines 313-323); they are forwarded to the constructor only when a new
`PersistentPeripheral` is created. -/
structure BleCfg where
  connectTimeout : ℚ
  keepaliveInterval : ℚ
  keepaliveReadHandle : Option ℤ
  deriving DecidableEq, Repr

/-- A created `PersistentPeripheral`, identified by the order of its
creation (`id`); the constructor receives the canonical key components
(`mac=key[0], iface=key[1]`, lines 330-331) and the configuration. -/
structure PPInst where
  id : ℕ
  mac : String
  iface : ℤ
  cfg : BleCfg
  deriving DecidableEq, Repr

/-- The class-level registry `BleManager._instances` keyed by
`(mac.upper(), int(iface))` (line 324), plus a creation counter giving
each instance its identity. -/
structure BleRegistry where
  instances : List ((String × ℤ) × PPInst)
  nextId : ℕ
  deriving DecidableEq, Repr

/-- Association-list lookup over the registry. -/
def regLookup (l : List ((String × ℤ) × PPInst)) (key : String × ℤ) :
    Option PPInst :=
  match l with
  | [] => none
  | (k, v) :: rest => if k = key then some v else regLookup rest key

/-- `BleManager.get(mac, iface, **cfg)` (lines 313-337): canonicalise the
key to `(mac.upper(), int(iface))`, return the registered instance if
present (ignoring `cfg`), otherwise construct, register and return a new
one. -/
def bleGet (reg : BleRegistry) (mac : String) (iface : ℤ) (cfg : BleCfg) :
    PPInst × BleRegistry :=
  let key : String × ℤ := (upperStr mac, iface)
  match regLookup reg.instances key with
  | some pp => (pp, reg)
  | none =>
      let pp : PPInst := ⟨reg.nextId, key.1, key.2, cfg⟩
      (pp, ⟨reg.instances ++ [(key, pp)], reg.nextId + 1⟩)

section Helpers

lemma pyTrunc_of_nonneg (q : ℚ) (h : 0 ≤ q) : pyTrunc q = ⌊q⌋ := by
  simp [pyTrunc, h]

lemma markDisconnected_breakerLevel (st : TionState) (reason : String)
    (now j : ℚ) :
    (markDisconnected st reason now j).breakerLevel =
      if isHandshakeReason reason then min (st.breakerLevel + 1) 3
      else st.breakerLevel := by
  by_cases hr : isHandshakeReason reason <;> simp [markDisconnected, hr]

lemma markDisconnected_breakerUntil_of_handshake (st : TionState)
    (reason : String) (now j : ℚ) (hr : isHandshakeReason reason = true) :
    (markDisconnected st reason now j).breakerUntil =
      now + ((pyTrunc ((stageList.getD (min (st.breakerLevel + 1) 3) 0 : ℚ) * j) : ℤ) : ℚ) := by
  simp [markDisconnected, hr]

lemma markDisconnected_needHardReset_of_handshake (st : TionState)
    (reason : String) (now j : ℚ) (hr : isHandshakeReason reason = true) :
    (markDisconnected st reason now j).needHardReset = true := by
  simp [markDisconnected, hr]

end Helpers

/-- C1: if the circuit breaker's silence window has not elapsed
(`now < _breaker_until_ts`, i.e. `may_attempt(now)` is false) then
`_ensure_connected` raises the `Breaker open` `UpdateFailed` immediately:
the state is untouched and the trace of Link Handle calls is empty.
The hypothesis `hinv` is the (preserved) invariant that a connected
session has a closed breaker, which rules out the `_is_connected` fast
path. -/
theorem breaker_silence_honored (st : TionState) (nowS nowE : ℚ)
    (att : AttemptOutcome) (j : ℚ)
    (hinv : st.isConnected = true → st.breakerUntil = 0)
    (hnow : 0 ≤ nowS) (hlt : nowS < st.breakerUntil) :
    ensureConnected st nowS nowE att j =
      (.breakerOpen (pyTrunc (st.breakerUntil - nowS)), st, []) := by
  have hconn : st.isConnected = false := by
    by_contra h
    have h1 : st.isConnected = true := by
      cases hGoal : st.isConnected
      · exact absurd hGoal h
      · rfl
    have h2 := hinv h1
    rw [h2] at hlt
    exact absurd (lt_of_le_of_lt hnow hlt) (lt_irrefl 0)
  simp [ensureConnected, hconn, hlt]

/-- Concrete instantiation of `breaker_silence_honored`: a disconnected
state whose breaker is open until t=100 rejects an attempt at t=5. -/
theorem breaker_silence_honored_witness :
    ensureConnected
      ⟨100, 2, true, 1, false, 10, 10, 0, 60⟩ 5 6 (.afterConnect .ok) 1 =
      (.breakerOpen (pyTrunc ((100 : ℚ) - 5)),
       ⟨100, 2, true, 1, false, 10, 10, 0, 60⟩, []) := by
  exact breaker_silence_honored ⟨100, 2, true, 1, false, 10, 10, 0, 60⟩ 5 6
    (.afterConnect .ok) 1 (by simp) (by norm_num) (by norm_num)

/-- C3: `_mark_disconnected` increments `_fail_count` and computes the
reconnect delay `min(10 * 2 ** (fail_count - 1), 60)`; for consecutive
ordinary failure counts 1..5 this is the sequence 10, 20, 40, 60, 60. -/
theorem backoff_growth_sequence :
    (∀ (st : TionState) (reason : String) (now j : ℚ),
        (markDisconnected st reason now j).failCount = st.failCount + 1 ∧
        (markDisconnected st reason now j).reconnectDelay =
          (backoffOf (st.failCount + 1) : ℚ)) ∧
    List.map backoffOf [1, 2, 3, 4, 5] = [10, 20, 40, 60, 60] := by
  refine ⟨fun st reason now j => ⟨?_, ?_⟩, by decide⟩
  · by_cases hr : isHandshakeReason reason <;> simp [markDisconnected, hr]
  · by_cases hr : isHandshakeReason reason <;> simp [markDisconnected, hr]

/-- C2: on a handshake-classified failure, `_mark_disconnected` advances
the breaker level by 1 capped at 3, sets
`_breaker_until_ts = now + int(stage[new_level] * j)` with
`stage = [15, 45, 120, 300]` and `j` drawn uniformly from `[0.8, 1.2]`,
and requests a hard reset; starting from level 0, three consecutive
handshake failures reach level 3 with a silence window of
`300 * (0.8..1.2)` seconds (truncated to an integer) after the third. -/
theorem record_failure_handshake_escalation (st : TionState)
    (reason : String) (now j : ℚ)
    (hr : isHandshakeReason reason = true) (hj : 0 ≤ j) :
    ((markDisconnected st reason now j).breakerLevel =
        min (st.breakerLevel + 1) 3 ∧
     (markDisconnected st reason now j).breakerUntil =
        now + ((⌊(stageList.getD (min (st.breakerLevel + 1) 3) 0 : ℚ) * j⌋ : ℤ) : ℚ) ∧
     (markDisconnected st reason now j).needHardReset = true) ∧
    (st.breakerLevel = 0 →
      ∀ (r2 r3 : String) (n2 n3 j2 j3 : ℚ),
        isHandshakeReason r2 = true → isHandshakeReason r3 = true →
        (0.8 : ℚ) ≤ j3 → j3 ≤ (1.2 : ℚ) →
        ((markDisconnected (markDisconnected (markDisconnected st reason now j)
            r2 n2 j2) r3 n3 j3).breakerLevel = 3 ∧
         n3 + 240 ≤ (markDisconnected (markDisconnected (markDisconnected st
            reason now j) r2 n2 j2) r3 n3 j3).breakerUntil ∧
         (markDisconnected (markDisconnected (markDisconnected st reason now j)
            r2 n2 j2) r3 n3 j3).breakerUntil ≤ n3 + 360)) := by
  constructor
  · refine ⟨?_, ?_, markDisconnected_needHardReset_of_handshake st reason now j hr⟩
    · rw [markDisconnected_breakerLevel]
      simp [hr]
    · rw [markDisconnected_breakerUntil_of_handshake st reason now j hr,
          pyTrunc_of_nonneg]
      exact mul_nonneg (by positivity) hj
  · intro h0 r2 r3 n2 n3 j2 j3 hr2 hr3 hj3l hj3u
    have hj3 : (0 : ℚ) ≤ j3 := by linarith
    have hl1 : (markDisconnected st reason now j).breakerLevel = 1 := by
      rw [markDisconnected_breakerLevel]
      simp [hr, h0]
    have hl2 : (markDisconnected (markDisconnected st reason now j)
        r2 n2 j2).breakerLevel = 2 := by
      rw [markDisconnected_breakerLevel]
      simp [hr2, hl1]
    have hl3 : (markDisconnected (markDisconnected (markDisconnected st
        reason now j) r2 n2 j2) r3 n3 j3).breakerLevel = 3 := by
      rw [markDisconnected_breakerLevel]
      simp [hr3, hl2]
    have hstage : (stageList.getD (min ((markDisconnected (markDisconnected st
        reason now j) r2 n2 j2).breakerLevel + 1) 3) 0 : ℚ) = 300 := by
      rw [hl2]
      simp [stageList]
    have hU : (markDisconnected (markDisconnected (markDisconnected st reason
        now j) r2 n2 j2) r3 n3 j3).breakerUntil =
        n3 + ((⌊(300 : ℚ) * j3⌋ : ℤ) : ℚ) := by
      rw [markDisconnected_breakerUntil_of_handshake _ r3 n3 j3 hr3,
          pyTrunc_of_nonneg, hstage]
      rw [hstage]
      positivity
    have hlow : (240 : ℤ) ≤ ⌊(300 : ℚ) * j3⌋ := by
      rw [Int.le_floor]
      push_cast
      nlinarith
    have hhigh : ⌊(300 : ℚ) * j3⌋ ≤ 360 := by
      have h1 : ⌊(300 : ℚ) * j3⌋ ≤ ⌊(360 : ℚ)⌋ :=
        Int.floor_le_floor (by nlinarith)
      have h2 : ⌊(360 : ℚ)⌋ = 360 := by norm_num
      omega
    refine ⟨hl3, ?_, ?_⟩
    · rw [hU]
      have : ((240 : ℤ) : ℚ) ≤ ((⌊(300 : ℚ) * j3⌋ : ℤ) : ℚ) := by
        exact_mod_cast hlow
      push_cast at this ⊢
      linarith
    · rw [hU]
      have : ((⌊(300 : ℚ) * j3⌋ : ℤ) : ℚ) ≤ ((360 : ℤ) : ℚ) := by
        exact_mod_cast hhigh
      push_cast at this ⊢
      linarith

/-- Concrete instantiation of `record_failure_handshake_escalation`:
three handshake timeouts from a fresh breaker, the third at t=50 with
jitter 1.1, reach level 3 with a silence window inside [240, 360]. -/
theorem record_failure_handshake_escalation_witness :
    (markDisconnected (markDisconnected (markDisconnected
        ⟨0, 0, false, 0, false, 10, 10, 0, 60⟩
        "Handshake timeout: BLE services are not ready" 0 1)
        "Handshake timeout: BLE services are not ready" 20 1)
        "Handshake timeout: BLE services are not ready" 50 (1.1 : ℚ)).breakerLevel = 3 ∧
    (50 : ℚ) + 240 ≤ (markDisconnected (markDisconnected (markDisconnected
        ⟨0, 0, false, 0, false, 10, 10, 0, 60⟩
        "Handshake timeout: BLE services are not ready" 0 1)
        "Handshake timeout: BLE services are not ready" 20 1)
        "Handshake timeout: BLE services are not ready" 50 (1.1 : ℚ)).breakerUntil ∧
    (markDisconnected (markDisconnected (markDisconnected
        ⟨0, 0, false, 0, false, 10, 10, 0, 60⟩
        "Handshake timeout: BLE services are not ready" 0 1)
        "Handshake timeout: BLE services are not ready" 20 1)
        "Handshake timeout: BLE services are not ready" 50 (1.1 : ℚ)).breakerUntil ≤ (50 : ℚ) + 360 :=
  (record_failure_handshake_escalation
    ⟨0, 0, false, 0, false, 10, 10, 0, 60⟩
    "Handshake timeout: BLE services are not ready" 0 1
    (by decide) (by norm_num)).2 rfl
    "Handshake timeout: BLE services are not ready"
    "Handshake timeout: BLE services are not ready" 20 50 1 (1.1 : ℚ)
    (by decide) (by decide) (by norm_num) (by norm_num)

/-- The operations of the lifecycle engine that touch `TionState`:
`_ensure_connected` (with its environment), the failure paths of
`async_update_state`/`set` (which optionally set `_need_hard_reset` and
then call `_mark_disconnected`), and their success paths (which reset
`_fail_count` and restore the keep-alive interval).  `_hard_reset_ble`
only runs inside `_ensure_connected`, and `_hard_reset_connection` is
never called. -/
inductive TionOp where
  | ensure (nowS nowE : ℚ) (att : AttemptOutcome) (j : ℚ)
  | ioFail (reason : String) (now j : ℚ) (setHard : Bool)
  | ioSuccess
  deriving Repr

/-- The state transformation of each operation. -/
def applyOp : TionOp → TionState → TionState
  | .ensure nowS nowE att j, st => (ensureConnected st nowS nowE att j).2.1
  | .ioFail reason now j setHard, st =>
      let st1 := if setHard then { st with needHardReset := true } else st
      markDisconnected st1 reason now j
  | .ioSuccess, st => { st with failCount := 0, updateInterval := st.keepAlive }

/-- Whether the operation completed a successful transition into the
`Ready` state (the `else` branch of `_ensure_connected`, lines 326-333). -/
def opEntersReady : TionOp → TionState → Bool
  | .ensure nowS nowE att j, st =>
      decide ((ensureConnected st nowS nowE att j).1 = .connected)
  | _, _ => false

/-- Whether the operation recorded a handshake-classified failure. -/
def opHandshakeFail : TionOp → TionState → Bool
  | .ensure nowS nowE att j, st =>
      match (ensureConnected st nowS nowE att j).1 with
      | .raised reason => isHandshakeReason reason
      | _ => false
  | .ioFail reason _ _ _, _ => isHandshakeReason reason
  | .ioSuccess, _ => false

/-- C4: across every operation of the engine, the breaker level stays
within 0..3; it decreases only to 0 and only on the operation that
successfully enters `Ready`; and it increases only when the operation
records a handshake-classified failure. -/
theorem breaker_level_monotonicity (op : TionOp) (st : TionState)
    (h3 : st.breakerLevel ≤ 3) :
    (applyOp op st).breakerLevel ≤ 3 ∧
    ((applyOp op st).breakerLevel < st.breakerLevel →
      (applyOp op st).breakerLevel = 0 ∧ opEntersReady op st = true) ∧
    (st.breakerLevel < (applyOp op st).breakerLevel →
      opHandshakeFail op st = true) := by
  cases op with
  | ioSuccess =>
    refine ⟨h3, ?_, ?_⟩ <;> intro h <;> simp [applyOp] at h
  | ioFail reason now j setHard =>
    have hlvl : (applyOp (.ioFail reason now j setHard) st).breakerLevel =
        if isHandshakeReason reason then min (st.breakerLevel + 1) 3
        else st.breakerLevel := by
      cases setHard <;> simp [applyOp, markDisconnected_breakerLevel]
    by_cases hr : isHandshakeReason reason
    · rw [hlvl, if_pos hr]
      refine ⟨by omega, by omega, fun _ => ?_⟩
      simp [opHandshakeFail, hr]
    · rw [hlvl, if_neg hr]
      exact ⟨h3, by omega, by omega⟩
  | ensure nowS nowE att j =>
    by_cases hc : st.isConnected
    · simp [applyOp, opEntersReady, opHandshakeFail, ensureConnected, hc]
      exact h3
    · by_cases hb : nowS < st.breakerUntil
      · simp [applyOp, opEntersReady, opHandshakeFail, ensureConnected, hc, hb]
        exact h3
      · cases att with
        | connectRaise msg =>
          have hlvl : (applyOp (.ensure nowS nowE (.connectRaise msg) j) st).breakerLevel =
              if isHandshakeReason ("connect/prime failed: " ++ msg) then
                min (st.breakerLevel + 1) 3
              else st.breakerLevel := by
            by_cases hh : st.needHardReset <;>
              simp [applyOp, ensureConnected, hardResetBle, hc, hb, hh,
                markDisconnected_breakerLevel]
          have hout : (ensureConnected st nowS nowE (.connectRaise msg) j).1 =
              .raised ("connect/prime failed: " ++ msg) := by
            by_cases hh : st.needHardReset <;>
              simp [ensureConnected, hardResetBle, hc, hb, hh]
          by_cases hr : isHandshakeReason ("connect/prime failed: " ++ msg)
          · rw [hlvl, if_pos hr]
            refine ⟨by omega, by omega, fun _ => ?_⟩
            simp [opHandshakeFail, hout, hr]
          · rw [hlvl, if_neg hr]
            exact ⟨h3, by omega, by omega⟩
        | afterConnect pr =>
          cases pr with
          | ok =>
            have hlvl : (applyOp (.ensure nowS nowE (.afterConnect .ok) j) st).breakerLevel = 0 := by
              by_cases hh : st.needHardReset <;>
                simp [applyOp, ensureConnected, hardResetBle, hc, hb, hh]
            have hout : (ensureConnected st nowS nowE (.afterConnect .ok) j).1 =
                .connected := by
              by_cases hh : st.needHardReset <;>
                simp [ensureConnected, hardResetBle, hc, hb, hh]
            rw [hlvl]
            refine ⟨by omega, fun _ => ⟨rfl, ?_⟩, by omega⟩
            simp [opEntersReady, hout]
          | err msg =>
            have hlvl : (applyOp (.ensure nowS nowE (.afterConnect (.err msg)) j) st).breakerLevel =
                if isHandshakeReason ("connect/prime failed: " ++ msg) then
                  min (st.breakerLevel + 1) 3
                else st.breakerLevel := by
              by_cases hh : st.needHardReset <;>
                by_cases hs : containsSub (lowerStr msg) "services are not ready" <;>
                  simp [applyOp, ensureConnected, hardResetBle, hc, hb, hh, hs,
                    markDisconnected_breakerLevel]
            have hout : (ensureConnected st nowS nowE (.afterConnect (.err msg)) j).1 =
                .raised ("connect/prime failed: " ++ msg) := by
              by_cases hh : st.needHardReset <;>
                by_cases hs : containsSub (lowerStr msg) "services are not ready" <;>
                  simp [ensureConnected, hardResetBle, hc, hb, hh, hs]
            by_cases hr : isHandshakeReason ("connect/prime failed: " ++ msg)
            · rw [hlvl, if_pos hr]
              refine ⟨by omega, by omega, fun _ => ?_⟩
              simp [opHandshakeFail, hout, hr]
            · rw [hlvl, if_neg hr]
              exact ⟨h3, by omega, by omega⟩

/-- Concrete instantiation of `breaker_level_monotonicity`: a
handshake-classified I/O failure at level 3 keeps the level at 3. -/
theorem breaker_level_monotonicity_witness :
    (applyOp (.ioFail "BleakError: services are not ready" 7 1 true)
      ⟨0, 3, false, 2, true, 10, 10, 0, 60⟩).breakerLevel ≤ 3 :=
  (breaker_level_monotonicity
    (.ioFail "BleakError: services are not ready" 7 1 true)
    ⟨0, 3, false, 2, true, 10, 10, 0, 60⟩ (by norm_num)).1

/-- C5: if the first seven `get()` attempts of the priming loop all fail
with the service-not-ready `BleakError` and the seventh failure is
observed at elapsed time under 10 seconds, `_prime_services` raises the
fast handshake-timeout immediately — long before the 60-second budget —
and the raised message is handshake-classified, so the breaker will
escalate. -/
theorem prime_fast_fail (t1 t2 t3 t4 t5 t6 t7 u1 u2 u3 u4 u5 u6 u7 : ℚ)
    (rest : List PrimeEvent)
    (h1 : t1 < primeTimeoutS) (h2 : t2 < primeTimeoutS)
    (h3 : t3 < primeTimeoutS) (h4 : t4 < primeTimeoutS)
    (h5 : t5 < primeTimeoutS) (h6 : t6 < primeTimeoutS)
    (h7 : t7 < primeTimeoutS) (hu : u7 < 10) :
    primeLoop primeTimeoutS 0
      (⟨t1, .bleakNotReady, u1⟩ :: ⟨t2, .bleakNotReady, u2⟩ ::
       ⟨t3, .bleakNotReady, u3⟩ :: ⟨t4, .bleakNotReady, u4⟩ ::
       ⟨t5, .bleakNotReady, u5⟩ :: ⟨t6, .bleakNotReady, u6⟩ ::
       ⟨t7, .bleakNotReady, u7⟩ :: rest) = .fastFail ∧
    isHandshakeReason ((primeMsg .fastFail).getD "") = true ∧
    u7 < primeTimeoutS := by
  refine ⟨?_, by decide, by simp [primeTimeoutS]; linarith⟩
  simp [primeLoop, h1, h2, h3, h4, h5, h6, h7, hu]

/-- Concrete instantiation of `prime_fast_fail`: seven not-ready
failures, the seventh at t=2.1s, make the loop fail fast. -/
theorem prime_fast_fail_witness :
    primeLoop primeTimeoutS 0
      (⟨(0.4 : ℚ), .bleakNotReady, (0.45 : ℚ)⟩ ::
       ⟨(0.7 : ℚ), .bleakNotReady, (0.75 : ℚ)⟩ ::
       ⟨(1.0 : ℚ), .bleakNotReady, (1.05 : ℚ)⟩ ::
       ⟨(1.3 : ℚ), .bleakNotReady, (1.35 : ℚ)⟩ ::
       ⟨(1.6 : ℚ), .bleakNotReady, (1.65 : ℚ)⟩ ::
       ⟨(1.9 : ℚ), .bleakNotReady, (1.95 : ℚ)⟩ ::
       ⟨(2.05 : ℚ), .bleakNotReady, (2.1 : ℚ)⟩ :: []) = .fastFail ∧
    isHandshakeReason ((primeMsg .fastFail).getD "") = true ∧
    (2.1 : ℚ) < primeTimeoutS :=
  prime_fast_fail 0.4 0.7 1.0 1.3 1.6 1.9 2.05 0.45 0.75 1.05 1.35 1.65 1.95 2.1
    [] (by norm_num [primeTimeoutS]) (by norm_num [primeTimeoutS])
    (by norm_num [primeTimeoutS]) (by norm_num [primeTimeoutS])
    (by norm_num [primeTimeoutS]) (by norm_num [primeTimeoutS])
    (by norm_num [primeTimeoutS]) (by norm_num)

/-- C6: when `_need_hard_reset` is set and the breaker permits an
attempt, `_ensure_connected` first tears down and recreates the driver
object (`_hard_reset_ble`: a disconnect of the old instance followed by
construction of a new one) and only then issues the raw connect — which
targets the new instance; exactly one recreation happens in the call,
and the flag is cleared by it: it stays cleared on success, and after a
raw-connect failure it is set again only if that failure itself is
handshake-classified. -/
theorem hard_reset_before_connect (st : TionState) (nowS nowE : ℚ)
    (att : AttemptOutcome) (j : ℚ)
    (hc : st.isConnected = false) (hh : st.needHardReset = true)
    (hb : st.breakerUntil ≤ nowS) :
    (∃ rest, (ensureConnected st nowS nowE att j).2.2 =
        .disconnect st.tionGen :: .recreate (st.tionGen + 1) ::
        .connect (st.tionGen + 1) :: rest) ∧
    ((ensureConnected st nowS nowE att j).2.2.countP LinkCall.isRecreate = 1) ∧
    ((ensureConnected st nowS nowE att j).1 = .connected →
      (ensureConnected st nowS nowE att j).2.1.needHardReset = false) ∧
    (∀ msg, att = .connectRaise msg →
      (ensureConnected st nowS nowE att j).2.1.needHardReset =
        isHandshakeReason ("connect/prime failed: " ++ msg)) := by
  have hb2 : ¬ nowS < st.breakerUntil := not_lt.mpr hb
  cases att with
  | connectRaise msg =>
    refine ⟨⟨[.disconnect (st.tionGen + 1)], ?_⟩, ?_, ?_, ?_⟩
    · simp [ensureConnected, hardResetBle, hc, hh, hb2]
    · simp [ensureConnected, hardResetBle, hc, hh, hb2, LinkCall.isRecreate]
    · intro hcon
      simp [ensureConnected, hardResetBle, hc, hh, hb2] at hcon
    · intro m hm
      have hm2 : m = msg := by cases hm; rfl
      subst hm2
      by_cases hr : isHandshakeReason ("connect/prime failed: " ++ m) <;>
        simp [ensureConnected, hardResetBle, hc, hh, hb2, markDisconnected, hr]
  | afterConnect pr =>
    cases pr with
    | ok =>
      refine ⟨⟨[], ?_⟩, ?_, fun _ => ?_, fun m hm => by cases hm⟩
      · simp [ensureConnected, hardResetBle, hc, hh, hb2]
      · simp [ensureConnected, hardResetBle, hc, hh, hb2, LinkCall.isRecreate]
      · simp [ensureConnected, hardResetBle, hc, hh, hb2]
    | err msg =>
      refine ⟨⟨[.disconnect (st.tionGen + 1)], ?_⟩, ?_, ?_, fun m hm => by cases hm⟩
      · by_cases hs : containsSub (lowerStr msg) "services are not ready" <;>
          simp [ensureConnected, hardResetBle, hc, hh, hb2, hs]
      · by_cases hs : containsSub (lowerStr msg) "services are not ready" <;>
          simp [ensureConnected, hardResetBle, hc, hh, hb2, hs, LinkCall.isRecreate]
      · intro hcon
        by_cases hs : containsSub (lowerStr msg) "services are not ready" <;>
          simp [ensureConnected, hardResetBle, hc, hh, hb2, hs] at hcon

/-- Concrete instantiation of `hard_reset_before_connect`: a successful
attempt after a requested hard reset produces the
disconnect/recreate/connect trace and leaves the flag cleared. -/
theorem hard_reset_before_connect_witness :
    (∃ rest, (ensureConnected ⟨3, 3, true, 3, false, 10, 10, 5, 60⟩ 4 5
        (.afterConnect .ok) 1).2.2 =
        .disconnect 5 :: .recreate 6 :: .connect 6 :: rest) ∧
    ((ensureConnected ⟨3, 3, true, 3, false, 10, 10, 5, 60⟩ 4 5
        (.afterConnect .ok) 1).2.2.countP LinkCall.isRecreate = 1) ∧
    ((ensureConnected ⟨3, 3, true, 3, false, 10, 10, 5, 60⟩ 4 5
        (.afterConnect .ok) 1).1 = .connected →
      (ensureConnected ⟨3, 3, true, 3, false, 10, 10, 5, 60⟩ 4 5
        (.afterConnect .ok) 1).2.1.needHardReset = false) ∧
    (∀ msg, (.afterConnect .ok : AttemptOutcome) = .connectRaise msg →
      (ensureConnected ⟨3, 3, true, 3, false, 10, 10, 5, 60⟩ 4 5
        (.afterConnect .ok) 1).2.1.needHardReset =
        isHandshakeReason ("connect/prime failed: " ++ msg)) :=
  hard_reset_before_connect ⟨3, 3, true, 3, false, 10, 10, 5, 60⟩ 4 5
    (.afterConnect .ok) 1 rfl rfl (by norm_num)

/-- C7: `PersistentPeripheral.disconnect()` from ANY state — including
the never-connected initial state — stops the worker, clears the
connected flag and drops the peripheral; the low-level disconnect is
attempted exactly when a peripheral exists and its errors are ignored
(the result does not depend on `perRaises`); afterwards the worker loop
guard is false and no worker transition can fire, so the manager is
retired. -/
theorem shutdown_safe_and_terminal (st : PPConn) (r : Bool) :
    (ppDisconnect st r).1 = ({ stop := true, connected := false, hasPer := false } : PPConn) ∧
    (ppDisconnect st r).2 = st.hasPer ∧
    ppDisconnect st r = ppDisconnect st (!r) ∧
    (ppDisconnect ppInit r).2 = false ∧
    workerMayRun (ppDisconnect st r).1 = false ∧
    ∀ st2, ¬ WorkerStep (ppDisconnect st r).1 st2 := by
  refine ⟨rfl, rfl, rfl, rfl, rfl, ?_⟩
  intro st2 hstep
  cases hstep <;> simp_all [ppDisconnect]

/-- Concrete instantiation of `shutdown_safe_and_terminal` at a
connected state whose low-level disconnect raises. -/
theorem shutdown_safe_and_terminal_witness :
    (ppDisconnect ⟨false, true, true⟩ true).1 =
      ({ stop := true, connected := false, hasPer := false } : PPConn) ∧
    ¬ WorkerStep (ppDisconnect ⟨false, true, true⟩ true).1 ppInit :=
  ⟨(shutdown_safe_and_terminal ⟨false, true, true⟩ true).1,
   (shutdown_safe_and_terminal ⟨false, true, true⟩ true).2.2.2.2.2 ppInit⟩

/-- Counterexample to C8 as stated: a successful `set` during which the
driver returns no fresh state still mutates the cache — `set` runs
`self.data.update(original_args)` on every success, so the cache is NOT
left untouched. -/
theorem set_cache_counterexample :
    (setOp [("fan_speed", .pi 1)] [("fan_speed", .pi 2)]
        (.success none)).2.2 ≠ [("fan_speed", .pi 1)] := by
  decide

/-- C8 (amended): on success `set` merges the originally requested
fields (after the `fan_speed` `int()` conversion) into the cache,
regardless of what the driver returned — the driver's return value is
discarded; on failure the cache is untouched. -/
theorem set_cache_semantics :
    ∀ (data kwargs : List (String × PyVal)) (fresh : Option Snapshot)
      (msg : String),
      (setOp data kwargs (.success fresh)).2.2 =
        updateMap data (intifyFanSpeed kwargs) ∧
      (setOp data kwargs (.success fresh)).2.2 =
        (setOp data kwargs (.success none)).2.2 ∧
      (setOp data kwargs (.fail msg)).2.2 = data := by
  intro data kwargs fresh msg
  exact ⟨rfl, rfl, rfl⟩

section Helpers2

lemma pyTrunc_intCast (n : ℤ) : pyTrunc ((n : ℤ) : ℚ) = n := by
  unfold pyTrunc
  split <;> simp

end Helpers2

/-- Counterexample to C9 as stated: the normalization overwrites the
`"heater"` key in place, so on a snapshot with raw heater `"on"` the
first application stores `True` and the second re-decodes that boolean
to `False` (`True == "on"` is false in Python): applying the
normalization twice differs from applying it once. -/
theorem normalize_not_idempotent_counterexample :
    normalizeSnap 0 (normalizeSnap 0
      ⟨"on", "off", .s "on", 1, 2, none, none, 0⟩) ≠
    normalizeSnap 0 ⟨"on", "off", .s "on", 1, 2, none, none, 0⟩ := by
  decide

/-- C9 (amended): the normalization is idempotent on every field except
the in-place `heater`: a second application equals the first with
`heater` re-decoded to `False`; consequently it is idempotent exactly on
snapshots whose raw heater value does not decode to on. -/
theorem normalize_twice (rssi : ℤ) (r : Snapshot) :
    normalizeSnap rssi (normalizeSnap rssi r) =
      { normalizeSnap rssi r with heater := .b false } ∧
    (decodeHVal r.heater = false →
      normalizeSnap rssi (normalizeSnap rssi r) = normalizeSnap rssi r) := by
  constructor
  · simp [normalizeSnap, decodeHVal, pyTrunc_intCast]
  · intro h
    simp [normalizeSnap, h, pyTrunc_intCast]
    rfl

/-- Concrete instantiation of `normalize_twice` on a snapshot whose raw
heater is `"off"`: normalization is idempotent there. -/
theorem normalize_twice_witness :
    normalizeSnap 0 (normalizeSnap 0
      ⟨"on", "on", .s "off", 1, 2, none, none, 0⟩) =
    normalizeSnap 0 ⟨"on", "on", .s "off", 1, 2, none, none, 0⟩ :=
  (normalize_twice 0 ⟨"on", "on", .s "off", 1, 2, none, none, 0⟩).2 (by decide)

section Helpers3

lemma regLookup_append_self (l : List ((String × ℤ) × PPInst))
    (key : String × ℤ) (v : PPInst) (h : regLookup l key = none) :
    regLookup (l ++ [(key, v)]) key = some v := by
  induction l with
  | nil => simp [regLookup]
  | cons kv rest ih =>
    by_cases hk : kv.1 = key
    · simp [regLookup, hk] at h
    · simp only [List.cons_append, regLookup, hk, if_neg hk] at h ⊢
      exact ih h

end Helpers3

/-- C10: `BleManager.get` is idempotent per canonical key
`(mac.upper(), int(iface))`: a second call whose MAC differs only in
letter case (same uppercasing) and whose keyword configuration may
differ returns the very instance created or found by the first call and
leaves the registry unchanged. -/
theorem ble_get_idempotent (reg : BleRegistry) (mac1 mac2 : String)
    (iface : ℤ) (cfg1 cfg2 : BleCfg)
    (hmac : upperStr mac2 = upperStr mac1) :
    bleGet (bleGet reg mac1 iface cfg1).2 mac2 iface cfg2 =
      ((bleGet reg mac1 iface cfg1).1, (bleGet reg mac1 iface cfg1).2) := by
  cases hlook : regLookup reg.instances (upperStr mac1, iface) with
  | some pp =>
    simp [bleGet, hmac, hlook]
  | none =>
    simp [bleGet, hmac, hlook, regLookup_append_self _ _ _ hlook]

/-- Concrete instantiation of `ble_get_idempotent`: a fresh registry
queried for `"aa:bb"` and then `"AA:BB"` with different keyword options
yields the same instance and an unchanged registry. -/
theorem ble_get_idempotent_witness :
    bleGet (bleGet ⟨[], 0⟩ "aa:bb" 0 ⟨10, 30, none⟩).2 "AA:BB" 0
        ⟨99, 5, some 7⟩ =
      ((bleGet ⟨[], 0⟩ "aa:bb" 0 ⟨10, 30, none⟩).1,
       (bleGet ⟨[], 0⟩ "aa:bb" 0 ⟨10, 30, none⟩).2) :=
  ble_get_idempotent ⟨[], 0⟩ "aa:bb" "AA:BB" 0 ⟨10, 30, none⟩
    ⟨99, 5, some 7⟩ (by decide)

end HaTion
